import Mathlib

/-!
Verification of the istanbul-lib-hook module (lib/hook.js): a shallow
embedding of its matcher/transformer contract, the shared transform step,
the vm.createScript / vm.runInThisContext patching, the require (pirates)
hook registration with revert handles, and the module-cache eviction.

Side effects are made explicit: console.error output becomes a list of log
lines, postLoadHook invocations become recorded events, and the process-wide
mutable slots (vm entry points, the pirates hook list, the reverts list,
require.cache) become fields of explicit state records.
-/

namespace IstanbulLibHook

/-- A JavaScript exception value as used by the catch block of `transformFn`:
`ex.message` (the empty string models a falsy/absent message), `String(ex)`,
and `ex.stack`. -/
structure JsErr where
  message : String
  stringRep : String
  stack : String
  deriving DecidableEq, Repr

/-- A transformer `(code, filename) -> code` that may throw. -/
def Transformer : Type := String → String → Except JsErr String

/-- The `{ code, changed }` record produced by the transform step. -/
structure TransformResult where
  code : String
  changed : Bool
  deriving DecidableEq, Repr

/-- The line `console.error` prints when `verbose` is set. -/
def verboseLine (filename : String) : String :=
  "Module load hook: transform [" ++ filename ++ "]"

/-- `ex.message || String(ex)`: the message, falling back to the string
representation when the message is falsy (empty). -/
def messageShown (ex : JsErr) : String :=
  if ex.message = "" then ex.stringRep else ex.message

/-- The three diagnostic lines printed by the catch block of `transformFn`
(`console.error` joins its arguments with single spaces). -/
def errorLines (filename : String) (ex : JsErr) : List String :=
  ["Transformation error for " ++ filename ++ " ; return original code",
   messageShown ex,
   ex.stack]

/-- `transformFn(transformer, verbose)` applied to `(code, filename)`: runs the
transformer inside try/catch, falling back to the original code on failure.
Returns the `{ code, changed }` record together with the `console.error`
lines it emitted. Every caller in the module passes a string filename
(`shouldHook` guards the vm entry points; the loader passes file paths). -/
def transformFn (transformer : Transformer) (verbose : Bool)
    (code filename : String) : TransformResult × List String :=
  let vlog := if verbose then [verboseLine filename] else []
  match transformer code filename with
  | .ok transformed => ({ code := transformed, changed := true }, vlog)
  | .error ex => ({ code := code, changed := false }, vlog ++ errorLines filename ex)

/-- The filename argument of `vm.createScript` / `vm.runInThisContext`: a
string, or any non-string JavaScript value (anonymous in-memory scripts). -/
inductive FileArg where
  | str (s : String)
  | nonString
  deriving DecidableEq, Repr

/-- The underlying string of a `FileArg`; only used under a `shouldHook`
guard, which rules out the non-string case. -/
def FileArg.strOf : FileArg → String
  | .str s => s
  | .nonString => ""

/-- `shouldHook(matcher, filename)`: true iff the filename is a string and the
matcher accepts its resolved absolute path. `resolve` stands for node's
`path.resolve`. -/
def shouldHook (resolve : String → String) (matcher : String → Bool)
    (filename : FileArg) : Bool :=
  match filename with
  | .str s => matcher (resolve s)
  | .nonString => false

/-! ## The vm entry points (hookCreateScript / hookRunInThisContext) -/

section VmHooks

variable {Script RunResult : Type}

/-- A patched vm entry point, with its `console.error` output made explicit.
A pristine (unpatched) entry point emits no output. -/
def VmEntry (α : Type) : Type := String → FileArg → α × List String

/-- Lifts an original vm entry point into the model (it emits no log lines). -/
def liftEntry (orig : String → FileArg → α) : VmEntry α :=
  fun code file => (orig code file, [])

/-- The replacement function that `hookCreateScript` assigns to
`vm.createScript`: non-matching calls delegate unchanged to the captured
original; matching calls go through the transform step first. It closes over
the module-level `originalCreateScript` (`orig`), never over the previous
value of the slot. -/
def hookedCreateScript (orig : String → FileArg → Script)
    (resolve : String → String) (matcher : String → Bool)
    (transformer : Transformer) (verbose : Bool) : VmEntry Script :=
  fun code file =>
    if ! shouldHook resolve matcher file then (orig code file, [])
    else
      let ret := transformFn transformer verbose code file.strOf
      (orig ret.1.code file, ret.2)

/-- The replacement function that `hookRunInThisContext` assigns to
`vm.runInThisContext`; the source duplicates the body of the createScript
replacement verbatim. -/
def hookedRunInThisContext (orig : String → FileArg → RunResult)
    (resolve : String → String) (matcher : String → Bool)
    (transformer : Transformer) (verbose : Bool) : VmEntry RunResult :=
  fun code file =>
    if ! shouldHook resolve matcher file then (orig code file, [])
    else
      let ret := transformFn transformer verbose code file.strOf
      (orig ret.1.code file, ret.2)

/-- The mutable slots of the `vm` module that the hook manager patches. -/
structure VmState (Script RunResult : Type) where
  createScript : VmEntry Script
  runInThisContext : VmEntry RunResult

/-- The state of `vm` at module-load time, when `originalCreateScript` and
`originalRunInThisContext` are captured. -/
def initVm (origCS : String → FileArg → Script)
    (origRC : String → FileArg → RunResult) : VmState Script RunResult :=
  { createScript := liftEntry origCS, runInThisContext := liftEntry origRC }

/-- `hookCreateScript(matcher, transformer, opts)`: overwrites the
`vm.createScript` slot with the replacement built from the captured original. -/
def hookCreateScript (origCS : String → FileArg → Script)
    (resolve : String → String) (matcher : String → Bool)
    (transformer : Transformer) (verbose : Bool)
    (vm : VmState Script RunResult) : VmState Script RunResult :=
  { vm with createScript := hookedCreateScript origCS resolve matcher transformer verbose }

/-- `unhookCreateScript()`: unconditionally reassigns `vm.createScript` to the
original captured at module-load time. -/
def unhookCreateScript (origCS : String → FileArg → Script)
    (vm : VmState Script RunResult) : VmState Script RunResult :=
  { vm with createScript := liftEntry origCS }

/-- `hookRunInThisContext(matcher, transformer, opts)`: overwrites the
`vm.runInThisContext` slot. -/
def hookRunInThisContext (origRC : String → FileArg → RunResult)
    (resolve : String → String) (matcher : String → Bool)
    (transformer : Transformer) (verbose : Bool)
    (vm : VmState Script RunResult) : VmState Script RunResult :=
  { vm with runInThisContext := hookedRunInThisContext origRC resolve matcher transformer verbose }

/-- `unhookRunInThisContext()`: unconditionally reassigns
`vm.runInThisContext` to the original captured at module-load time. -/
def unhookRunInThisContext (origRC : String → FileArg → RunResult)
    (vm : VmState Script RunResult) : VmState Script RunResult :=
  { vm with runInThisContext := liftEntry origRC }

/-- One install operation on the vm slots (a `hookCreateScript` or
`hookRunInThisContext` call with its matcher/transformer/verbose arguments). -/
inductive VmOp where
  | hookCS (matcher : String → Bool) (transformer : Transformer) (verbose : Bool)
  | hookRC (matcher : String → Bool) (transformer : Transformer) (verbose : Bool)

/-- Applies a sequence of install operations to the vm state, in order. -/
def applyVmOps (origCS : String → FileArg → Script)
    (origRC : String → FileArg → RunResult) (resolve : String → String)
    (ops : List VmOp) (vm : VmState Script RunResult) : VmState Script RunResult :=
  ops.foldl (fun s op =>
    match op with
    | .hookCS m t v => hookCreateScript origCS resolve m t v s
    | .hookRC m t v => hookRunInThisContext origRC resolve m t v s) vm

end VmHooks

/-! ## The require hook (hookRequire / unhookRequire via pirates) -/

/-- An observable side effect of a module load: a `console.error` line or a
`postLoadHook(filename)` invocation, in the order they happen. -/
inductive Event where
  | log (line : String)
  | post (filename : String)
  deriving DecidableEq, Repr

/-- The options object of `hookRequire`. `postLoadHook` records whether a
function-valued `postLoadHook` was supplied (the source coerces any
non-function value to `null`); `extensions` is `none` when absent
(`options.extensions || ['.js']`). -/
structure HookOptions where
  verbose : Bool := false
  postLoadHook : Bool := false
  extensions : Option (List String) := none

/-- The callback `hookRequire` registers with `pirates.addHook`: it runs the
transform step, then (if a postLoadHook was supplied) calls
`postLoadHook(filename)`, and returns `ret.code`. Its second component is the
trace of effects, in order. -/
def requireHookFn (transformer : Transformer) (verbose : Bool)
    (postLoadHook : Bool) (code filename : String) : String × List Event :=
  let ret := transformFn transformer verbose code filename
  let postEvents := if postLoadHook then [Event.post filename] else []
  (ret.1.code, ret.2.map Event.log ++ postEvents)

/-- A hook registered with the module-loader facility: the callback plus the
`{ exts, matcher }` options that the facility uses to decide whether to
invoke the callback on a given load. -/
structure PiratesHook where
  hookFn : String → String → String × List Event
  exts : List String
  matcher : String → Bool

/-- Modelled from the spec: the module-loader facility (the external `pirates`
library, whose code is not part of this repository). Per §4.1, "for each load
whose resolved absolute path satisfies `matcher`, the code is passed through
the transform step" for a configurable set of extensions: on each load the
facility runs, in registration order, every registered callback whose
extension list contains the file's extension and whose matcher accepts the
file's path, threading the code through and accumulating the effects. -/
def piratesLoad (hooks : List PiratesHook) (code filename ext : String) :
    String × List Event :=
  hooks.foldl (fun acc h =>
    if h.exts.contains ext && h.matcher filename then
      let r := h.hookFn acc.1 filename
      (r.1, acc.2 ++ r.2)
    else acc) (code, [])

/-- The module-level mutable state behind `hookRequire`/`unhookRequire`: the
facility's list of registered hooks (tagged with ids so a revert handle can
remove its own hook), a fresh-id counter, and the `reverts` list. A revert
handle is modelled by the id of the hook it removes. -/
structure RequireState where
  hooks : List (Nat × PiratesHook)
  nextId : Nat
  reverts : List Nat

/-- The module-load-time require state: no hooks, empty reverts list. -/
def initRequireState : RequireState :=
  { hooks := [], nextId := 0, reverts := [] }

/-- `hookRequire(matcher, transformer, options)`: builds the transform
callback, registers it with the facility under
`{ exts: options.extensions || ['.js'], matcher }`, and pushes the returned
revert handle onto `reverts`. -/
def hookRequire (matcher : String → Bool) (transformer : Transformer)
    (options : HookOptions) (st : RequireState) : RequireState :=
  let hook : PiratesHook :=
    { hookFn := requireHookFn transformer options.verbose options.postLoadHook,
      exts := options.extensions.getD [".js"],
      matcher := matcher }
  { hooks := st.hooks ++ [(st.nextId, hook)],
    nextId := st.nextId + 1,
    reverts := st.reverts ++ [st.nextId] }

/-- Invoking one revert handle: the facility removes the hook the handle was
created for. -/
def invokeRevert (hooks : List (Nat × PiratesHook)) (id : Nat) :
    List (Nat × PiratesHook) :=
  hooks.filter (fun h => h.1 ≠ id)

/-- `unhookRequire()`: `reverts.forEach(revert); reverts = []`. Returns the
new state together with the trace of revert handles invoked, in order. -/
def unhookRequire (st : RequireState) : RequireState × List Nat :=
  ({ hooks := st.reverts.foldl invokeRevert st.hooks,
     nextId := st.nextId,
     reverts := [] },
   st.reverts)

/-! ## unloadRequireCache -/

/-- `unloadRequireCache(matcher)`: the matcher argument is `none` when a falsy
value was passed; the cache is `none` when the cache facility is unavailable
(`require` undefined or falsy, or `require.cache` falsy), otherwise the list
of cached entries keyed by filename. Deletes every entry whose key the
matcher accepts; otherwise leaves the cache as it is. -/
def unloadRequireCache {V : Type} (matcher : Option (String → Bool))
    (cache : Option (List (String × V))) : Option (List (String × V)) :=
  match matcher, cache with
  | some m, some entries => some (entries.filter (fun kv => ! m kv.1))
  | _, _ => cache

/-! ## Theorems -/

/-- C1: when the matcher accepts the filename and the transformer raises, the
transform step returns `{ code := C, changed := false }`, the patched entry
point hands exactly the original code `C` to the captured original, the
diagnostic lines (filename, error message, stack trace) are emitted on the
error stream, and the call returns normally — the exception never propagates
to the caller of the patched entry point. -/
theorem transform_failure_swallowed {Script : Type}
    (orig : String → FileArg → Script) (resolve : String → String)
    (matcher : String → Bool) (transformer : Transformer) (verbose : Bool)
    (C s : String) (ex : JsErr)
    (hm : shouldHook resolve matcher (FileArg.str s) = true)
    (he : transformer C s = Except.error ex) :
    transformFn transformer verbose C s =
      ({ code := C, changed := false },
        (if verbose then [verboseLine s] else []) ++ errorLines s ex) ∧
    hookedCreateScript orig resolve matcher transformer verbose C (FileArg.str s) =
      (orig C (FileArg.str s),
        (if verbose then [verboseLine s] else []) ++ errorLines s ex) := by
  constructor
  · simp [transformFn, he]
  · simp [hookedCreateScript, hm, transformFn, he, FileArg.strOf]

/-- Witness for C1 at a concrete input: an always-true matcher, an
always-throwing transformer, and the original entry point returning the code
it received. -/
theorem transform_failure_swallowed_witness :
    shouldHook id (fun _ => true) (FileArg.str "f.js") = true ∧
    (fun _ _ => (Except.error ⟨"boom", "Error: boom", "trace"⟩ : Except JsErr String))
        "CODE" "f.js" = Except.error ⟨"boom", "Error: boom", "trace"⟩ ∧
    transformFn (fun _ _ => Except.error ⟨"boom", "Error: boom", "trace"⟩) false "CODE" "f.js" =
      ({ code := "CODE", changed := false },
        (if false then [verboseLine "f.js"] else []) ++
          errorLines "f.js" ⟨"boom", "Error: boom", "trace"⟩) ∧
    hookedCreateScript (fun c _ => c) id (fun _ => true)
        (fun _ _ => Except.error ⟨"boom", "Error: boom", "trace"⟩) false "CODE" (FileArg.str "f.js") =
      ("CODE",
        (if false then [verboseLine "f.js"] else []) ++
          errorLines "f.js" ⟨"boom", "Error: boom", "trace"⟩) :=
  ⟨rfl, rfl,
    (transform_failure_swallowed (fun c _ => c) id (fun _ => true)
      (fun _ _ => Except.error ⟨"boom", "Error: boom", "trace"⟩) false
      "CODE" "f.js" ⟨"boom", "Error: boom", "trace"⟩ rfl rfl).1,
    (transform_failure_swallowed (fun c _ => c) id (fun _ => true)
      (fun _ _ => Except.error ⟨"boom", "Error: boom", "trace"⟩) false
      "CODE" "f.js" ⟨"boom", "Error: boom", "trace"⟩ rfl rfl).2⟩

/-- C2: when the matcher accepts the filename and the transformer returns
normally, the transform step returns `{ code := transformer C s, changed := true }`
and the captured original entry point is invoked with exactly the transformed
code in place of `C`. -/
theorem transform_success_applied {Script : Type}
    (orig : String → FileArg → Script) (resolve : String → String)
    (matcher : String → Bool) (transformer : Transformer) (verbose : Bool)
    (C s T : String)
    (hm : shouldHook resolve matcher (FileArg.str s) = true)
    (ht : transformer C s = Except.ok T) :
    transformFn transformer verbose C s =
      ({ code := T, changed := true }, if verbose then [verboseLine s] else []) ∧
    hookedCreateScript orig resolve matcher transformer verbose C (FileArg.str s) =
      (orig T (FileArg.str s), if verbose then [verboseLine s] else []) := by
  constructor
  · simp [transformFn, ht]
  · simp [hookedCreateScript, hm, transformFn, ht, FileArg.strOf]

/-- Witness for C2 at a concrete input: a transformer that prepends a marker,
with the original entry point returning the code it received. -/
theorem transform_success_applied_witness :
    shouldHook id (fun _ => true) (FileArg.str "f.js") = true ∧
    (fun c _ => (Except.ok ("LOG();" ++ c) : Except JsErr String)) "CODE" "f.js" =
      Except.ok "LOG();CODE" ∧
    transformFn (fun c _ => Except.ok ("LOG();" ++ c)) false "CODE" "f.js" =
      ({ code := "LOG();CODE", changed := true }, if false then [verboseLine "f.js"] else []) ∧
    hookedCreateScript (fun c _ => c) id (fun _ => true)
        (fun c _ => Except.ok ("LOG();" ++ c)) false "CODE" (FileArg.str "f.js") =
      ("LOG();CODE", if false then [verboseLine "f.js"] else []) :=
  ⟨rfl, rfl,
    (transform_success_applied (fun c _ => c) id (fun _ => true)
      (fun c _ => Except.ok ("LOG();" ++ c)) false "CODE" "f.js" "LOG();CODE" rfl rfl).1,
    (transform_success_applied (fun c _ => c) id (fun _ => true)
      (fun c _ => Except.ok ("LOG();" ++ c)) false "CODE" "f.js" "LOG();CODE" rfl rfl).2⟩

/-- C3: when the filename is not a string, or the matcher rejects its resolved
absolute path, both installed vm hooks delegate `(C, file)` unchanged to the
captured original entry point, for every transformer (so the transformer is
never invoked); moreover `shouldHook` never matches a non-string filename. -/
theorem unmatched_delegates {Script RunResult : Type}
    (origCS : String → FileArg → Script) (origRC : String → FileArg → RunResult)
    (resolve : String → String) (matcher : String → Bool) (verbose : Bool)
    (C : String) (file : FileArg)
    (h : file = FileArg.nonString ∨
         ∃ s, file = FileArg.str s ∧ matcher (resolve s) = false) :
    shouldHook resolve matcher file = false ∧
    (∀ transformer : Transformer,
      hookedCreateScript origCS resolve matcher transformer verbose C file =
        (origCS C file, []) ∧
      hookedRunInThisContext origRC resolve matcher transformer verbose C file =
        (origRC C file, [])) ∧
    shouldHook resolve matcher FileArg.nonString = false := by
  have hsh : shouldHook resolve matcher file = false := by
    rcases h with h | ⟨s, rfl, hs⟩
    · subst h; rfl
    · simpa [shouldHook] using hs
  refine ⟨hsh, fun transformer => ?_, rfl⟩
  constructor
  · simp [hookedCreateScript, hsh]
  · simp [hookedRunInThisContext, hsh]

/-- Witness for C3 at a concrete input: a non-string filename under an
always-true matcher. -/
theorem unmatched_delegates_witness :
    ((FileArg.nonString = FileArg.nonString ∨
        ∃ s, FileArg.nonString = FileArg.str s ∧ (fun _ => true) (id s) = false) ∧
     shouldHook id (fun _ => true) FileArg.nonString = false) ∧
    hookedCreateScript (fun c _ => c) id (fun _ => true)
        (fun c _ => Except.ok ("X" ++ c)) false "CODE" FileArg.nonString =
      ("CODE", []) ∧
    hookedRunInThisContext (fun c _ => c ++ "!") id (fun _ => true)
        (fun c _ => Except.ok ("X" ++ c)) false "CODE" FileArg.nonString =
      ("CODE!", []) :=
  ⟨⟨Or.inl rfl,
      (unmatched_delegates (fun c _ => c) (fun c _ => c ++ "!") id (fun _ => true)
        false "CODE" FileArg.nonString (Or.inl rfl)).1⟩,
    ((unmatched_delegates (fun c _ => c) (fun c _ => c ++ "!") id (fun _ => true)
        false "CODE" FileArg.nonString (Or.inl rfl)).2.1
      (fun c _ => Except.ok ("X" ++ c))).1,
    ((unmatched_delegates (fun c _ => c) (fun c _ => c ++ "!") id (fun _ => true)
        false "CODE" FileArg.nonString (Or.inl rfl)).2.1
      (fun c _ => Except.ok ("X" ++ c))).2⟩

/-- C5: `unhookCreateScript` (and likewise `unhookRunInThisContext`)
unconditionally restores the entry point to the pristine original captured at
module-load time: after any sequence of installs on either slot, unhooking
leaves the slot equal to the original, never an intermediate replacement;
unhooking the module-load-time state reassigns the entry point to itself. -/
theorem unhook_restores_pristine {Script RunResult : Type}
    (origCS : String → FileArg → Script) (origRC : String → FileArg → RunResult)
    (resolve : String → String) (ops : List VmOp) (vm : VmState Script RunResult) :
    (unhookCreateScript origCS (applyVmOps origCS origRC resolve ops vm)).createScript =
      (initVm origCS origRC).createScript ∧
    (unhookRunInThisContext origRC (applyVmOps origCS origRC resolve ops vm)).runInThisContext =
      (initVm origCS origRC).runInThisContext ∧
    unhookCreateScript origCS (initVm origCS origRC) = initVm origCS origRC ∧
    unhookRunInThisContext origRC (initVm origCS origRC) = initVm origCS origRC :=
  ⟨rfl, rfl, rfl, rfl⟩

/-- C6: installing a second createScript hook while a first is active
overwrites rather than composes: the resulting slot is exactly the
replacement built from the second (matcher, transformer) pair — independent
of the first pair, whose transformer can no longer be invoked — and calls the
second matcher rejects delegate to the pristine original entry point, not to
the first replacement. -/
theorem second_install_overwrites {Script RunResult : Type}
    (origCS : String → FileArg → Script) (resolve : String → String)
    (m1 : String → Bool) (t1 : Transformer) (v1 : Bool)
    (m2 : String → Bool) (t2 : Transformer) (v2 : Bool)
    (vm : VmState Script RunResult) :
    (hookCreateScript origCS resolve m2 t2 v2
        (hookCreateScript origCS resolve m1 t1 v1 vm)).createScript =
      hookedCreateScript origCS resolve m2 t2 v2 ∧
    (∀ C : String, ∀ file : FileArg, shouldHook resolve m2 file = false →
      (hookCreateScript origCS resolve m2 t2 v2
          (hookCreateScript origCS resolve m1 t1 v1 vm)).createScript C file =
        (origCS C file, [])) := by
  refine ⟨rfl, fun C file h => ?_⟩
  simp [hookCreateScript, hookedCreateScript, h]

/-- Witness for C6 at a concrete input: after installing a reject-all second
hook over an accept-all first hook, a call delegates to the pristine
original. -/
theorem second_install_overwrites_witness :
    (hookCreateScript (fun c _ => c) id (fun _ => false) (fun c _ => Except.ok ("B" ++ c)) false
        (hookCreateScript (fun c _ => c) id (fun _ => true) (fun c _ => Except.ok ("A" ++ c)) false
          (initVm (fun c _ => c) (fun c _ => c)))).createScript =
      hookedCreateScript (fun c _ => c) id (fun _ => false) (fun c _ => Except.ok ("B" ++ c)) false ∧
    shouldHook id (fun _ => false) (FileArg.str "f.js") = false ∧
    (hookCreateScript (fun c _ => c) id (fun _ => false) (fun c _ => Except.ok ("B" ++ c)) false
        (hookCreateScript (fun c _ => c) id (fun _ => true) (fun c _ => Except.ok ("A" ++ c)) false
          (initVm (fun c _ => c) (fun c _ => c)))).createScript "CODE" (FileArg.str "f.js") =
      ("CODE", []) :=
  ⟨(second_install_overwrites (fun c _ => c) id (fun _ => true) (fun c _ => Except.ok ("A" ++ c)) false
      (fun _ => false) (fun c _ => Except.ok ("B" ++ c)) false
      (initVm (fun c _ => c) (fun c _ => c))).1,
   rfl,
   (second_install_overwrites (fun c _ => c) id (fun _ => true) (fun c _ => Except.ok ("A" ++ c)) false
      (fun _ => false) (fun c _ => Except.ok ("B" ++ c)) false
      (initVm (fun c _ => c) (fun c _ => c))).2 "CODE" (FileArg.str "f.js") rfl⟩

/-- C7: `unhookRequire` invokes every recorded revert handle in registration
order, then leaves the reverts list empty; with no handles recorded it leaves
the state unchanged, and running it twice is the same as running it once
(the second run invokes nothing). -/
theorem unhookRequire_spec (st : RequireState) :
    (unhookRequire st).2 = st.reverts ∧
    (unhookRequire st).1.reverts = [] ∧
    (st.reverts = [] → unhookRequire st = (st, [])) ∧
    unhookRequire (unhookRequire st).1 = ((unhookRequire st).1, []) := by
  refine ⟨rfl, rfl, fun h => ?_, rfl⟩
  cases st with
  | mk hooks nextId reverts => simp_all [unhookRequire]

/-- Witness for C7 at a concrete input: the module-load-time state has no
recorded handles, and unhooking it is a no-op. -/
theorem unhookRequire_spec_witness :
    initRequireState.reverts = [] ∧
    unhookRequire initRequireState = (initRequireState, []) :=
  ⟨rfl, (unhookRequire_spec initRequireState).2.2.1 rfl⟩

/-- C8: with the matcher and the cache facility available,
`unloadRequireCache` keeps the cache entries in order and retains exactly
those whose key the matcher rejects — every matched entry is deleted, every
other entry is unchanged; when the cache facility is unavailable it is a
no-op for any matcher argument. -/
theorem unloadRequireCache_exact {V : Type} (m : String → Bool)
    (cache : List (String × V)) :
    (∃ entries : List (String × V),
      unloadRequireCache (some m) (some cache) = some entries ∧
      List.Sublist entries cache ∧
      (∀ kv : String × V, kv ∈ entries ↔ kv ∈ cache ∧ m kv.1 = false)) ∧
    (∀ mo : Option (String → Bool), unloadRequireCache (V := V) mo none = none) := by
  refine ⟨⟨cache.filter (fun kv => ! m kv.1), rfl, List.filter_sublist cache,
    fun kv => ?_⟩, fun mo => ?_⟩
  · simp [List.mem_filter]
  · cases mo <;> rfl

/-- Witness for C8 at a concrete input: a two-entry cache with a matcher
selecting the first key evicts exactly that entry, and an unavailable cache
is left untouched. -/
theorem unloadRequireCache_exact_witness :
    unloadRequireCache (some (fun k => k == "/a/foo.js"))
        (some [("/a/foo.js", 1), ("/a/bar.js", 2)]) = some [("/a/bar.js", 2)] ∧
    unloadRequireCache (V := Nat) (some (fun k => k == "/a/foo.js")) none = none := by
  have h := unloadRequireCache_exact (fun k => k == "/a/foo.js")
    [("/a/foo.js", 1), ("/a/bar.js", (2 : Nat))]
  exact ⟨by rfl, h.2 (some (fun k => k == "/a/foo.js"))⟩

/-- C10: `unloadRequireCache` called with a falsy (absent) matcher leaves the
module cache entirely unchanged, whether or not the cache facility is
available, and returns normally. -/
theorem unloadRequireCache_falsy_matcher {V : Type}
    (cache : Option (List (String × V))) :
    unloadRequireCache none cache = cache := by
  cases cache <;> rfl

/-- C9: the callback registered by `hookRequire` still invokes the
postLoadHook with the filename when the transformer raised for that file, and
the invocation comes after the whole transform step: the returned code is the
original and the effect trace is the transform step's log lines followed by
the postLoadHook call. -/
theorem postLoadHook_after_failed_transform
    (transformer : Transformer) (verbose : Bool) (C F : String) (ex : JsErr)
    (he : transformer C F = Except.error ex) :
    requireHookFn transformer verbose true C F =
      (C, (transformFn transformer verbose C F).2.map Event.log ++ [Event.post F]) ∧
    Event.post F ∈ (requireHookFn transformer verbose true C F).2 := by
  have h1 : requireHookFn transformer verbose true C F =
      (C, (transformFn transformer verbose C F).2.map Event.log ++ [Event.post F]) := by
    simp [requireHookFn, transformFn, he]
  exact ⟨h1, by rw [h1]; simp⟩

/-- Witness for C9 at a concrete input: an always-throwing transformer still
produces a `post` event after the diagnostic lines. -/
theorem postLoadHook_after_failed_transform_witness :
    ((fun _ _ => (Except.error ⟨"bad", "Error: bad", "st"⟩ : Except JsErr String))
        "C0" "/x/a.js" = Except.error ⟨"bad", "Error: bad", "st"⟩) ∧
    requireHookFn (fun _ _ => Except.error ⟨"bad", "Error: bad", "st"⟩) false true "C0" "/x/a.js" =
      ("C0", (errorLines "/x/a.js" ⟨"bad", "Error: bad", "st"⟩).map Event.log ++
        [Event.post "/x/a.js"]) ∧
    Event.post "/x/a.js" ∈
      (requireHookFn (fun _ _ => Except.error ⟨"bad", "Error: bad", "st"⟩) false true
        "C0" "/x/a.js").2 :=
  ⟨rfl,
    (postLoadHook_after_failed_transform (fun _ _ => Except.error ⟨"bad", "Error: bad", "st"⟩)
      false "C0" "/x/a.js" ⟨"bad", "Error: bad", "st"⟩ rfl).1,
    (postLoadHook_after_failed_transform (fun _ _ => Except.error ⟨"bad", "Error: bad", "st"⟩)
      false "C0" "/x/a.js" ⟨"bad", "Error: bad", "st"⟩ rfl).2⟩

/-- C4 counterexample: with a hook installed by `hookRequire` carrying a
postLoadHook, a load of an extension-eligible file whose path the matcher
rejects is processed by the loader with an empty effect trace — the
postLoadHook is not invoked, refuting "invoked after every load, matched or
not". -/
theorem postLoadHook_skipped_when_unmatched :
    (piratesLoad
      ((hookRequire (fun _ => false) (fun c _ => Except.ok c)
          { postLoadHook := true } initRequireState).hooks.map Prod.snd)
      "code" "/a/b.js" ".js").2 = [] ∧
    Event.post "/a/b.js" ∉
      (piratesLoad
        ((hookRequire (fun _ => false) (fun c _ => Except.ok c)
            { postLoadHook := true } initRequireState).hooks.map Prod.snd)
        "code" "/a/b.js" ".js").2 := by
  have h : (piratesLoad
      ((hookRequire (fun _ => false) (fun c _ => Except.ok c)
          { postLoadHook := true } initRequireState).hooks.map Prod.snd)
      "code" "/a/b.js" ".js").2 = [] := rfl
  exact ⟨h, by rw [h]; simp⟩

/-- C4 amended: after `hookRequire` with a postLoadHook, the postLoadHook is
invoked with the file path on every load the loader hands to the registered
callback — extension eligible and matcher accepted — irrespective of whether
the transformer succeeded or raised, after the transform step's output. -/
theorem postLoadHook_on_matched_loads (matcher : String → Bool)
    (transformer : Transformer) (options : HookOptions) (code F E : String)
    (hpost : options.postLoadHook = true)
    (hext : (options.extensions.getD [".js"]).contains E = true)
    (hm : matcher F = true) :
    (piratesLoad ((hookRequire matcher transformer options initRequireState).hooks.map Prod.snd)
      code F E).2 =
      (transformFn transformer options.verbose code F).2.map Event.log ++ [Event.post F] := by
  have hmem : E ∈ options.extensions.getD [".js"] := by simpa using hext
  simp [piratesLoad, hookRequire, initRequireState, requireHookFn, hext, hm, hpost, hmem]

/-- Witness for the amended C4 at a concrete input: a matched load with an
always-throwing transformer still records the postLoadHook call. -/
theorem postLoadHook_on_matched_loads_witness :
    (({ postLoadHook := true } : HookOptions).postLoadHook = true) ∧
    ((({ postLoadHook := true } : HookOptions).extensions.getD [".js"]).contains ".js" = true) ∧
    ((fun _ => true : String → Bool) "/a/foo.js" = true) ∧
    (piratesLoad
      ((hookRequire (fun _ => true) (fun _ _ => Except.error ⟨"bad", "B", "st"⟩)
          { postLoadHook := true } initRequireState).hooks.map Prod.snd)
      "C0" "/a/foo.js" ".js").2 =
      (transformFn (fun _ _ => Except.error ⟨"bad", "B", "st"⟩) false "C0" "/a/foo.js").2.map
        Event.log ++ [Event.post "/a/foo.js"] :=
  ⟨rfl, rfl, rfl,
    postLoadHook_on_matched_loads (fun _ => true) (fun _ _ => Except.error ⟨"bad", "B", "st"⟩)
      { postLoadHook := true } "C0" "/a/foo.js" ".js" rfl rfl rfl⟩

end IstanbulLibHook
